import Mathlib

/-!
# Verification of the SDL_GC controller-interface backend

A shallow embedding of `Source/Core/InputCommon/ControllerInterface/SDL_GC/SDL_GC.cpp`
(and its header).  Machine integers are modelled as `Int`/`Nat` with explicit
reductions modulo 2^16 where the C++ code converts to `Uint16`; `ControlState`
(a C++ `double`) is modelled as `ℚ`, which is exact for every value the code
actually produces in the claims under study.
-/

namespace SDLGC

/-! ## Machine-integer helpers -/

/-- C++ conversion of an `int` value to `Uint16`: reduction modulo 2^16
(the C++ standard guarantees wraparound for conversions to unsigned types).
This is how the `Uint16 m_range` constructor parameters and the
`(Uint16)(state * m_range)` cast in `Motor::SetState` behave. -/
def u16cast (z : Int) : Nat := (z % 65536).toNat

/-- `SDL_JOYSTICK_AXIS_MAX` = 32767. -/
def SDL_JOYSTICK_AXIS_MAX : Int := 32767

/-- `SDL_JOYSTICK_AXIS_MIN` = -32768. -/
def SDL_JOYSTICK_AXIS_MIN : Int := -32768

/-- Truncation of a rational toward zero, as C++ float→integer conversion
truncates.  `Int.tdiv` is Lean's truncating (T-)division, matching C++. -/
def ratTrunc (q : ℚ) : Int := Int.tdiv q.num (q.den : Int)

/-! ## Static control catalogs -/

/-- The names in `named_buttons` (16 entries). -/
def named_buttons : List String :=
  ["Button A", "Button B", "Button X", "Button Y", "Pad N", "Pad S", "Pad W",
   "Pad E", "Start", "Back", "Shoulder L", "Shoulder R", "Guide", "Thumb L",
   "Thumb R", "Touchpad"]

/-- The names in `named_trigger_axis` (2 entries). -/
def named_trigger_axis : List String := ["Trigger L", "Trigger R"]

/-- The names in `named_stick_axis` (4 entries). -/
def named_stick_axis : List String := ["Left X", "Left Y", "Right X", "Right Y"]

/-- The names in `named_motors` (2 entries). -/
def named_motors : List String := ["Motor L", "Motor R"]

/-! ## Axis control

`class Axis` stores `const Uint16 m_range` (note: unsigned), initialised from
the constructor argument by the usual unsigned conversion.  `GetState` computes
`ControlState(SDL_GameControllerGetAxis(...) / m_range)`: the raw `Sint16`
sample and the `Uint16` range are both promoted to `int`, divided with C++
integer division (truncation toward zero), and only then converted to `double`.
-/

/-- The stored `m_range` field of an `Axis` constructed with integer argument
`arg` (the `Uint16` conversion of the argument). -/
def axisStoredRange (arg : Int) : Nat := u16cast arg

/-- `Axis::GetState` on a raw driver sample `raw` (the `Sint16` returned by
`SDL_GameControllerGetAxis`) with stored range `range`: C++ integer division
of the promoted operands, truncating toward zero; the result is then converted
exactly to `double`.  We return the mathematical value as `Int`. -/
def axisGetState (raw : Int) (range : Nat) : Int := Int.tdiv raw (range : Int)

/-- `Axis::GetName`: the catalog name followed by `'-'` when `m_range < 0`
and `'+'` otherwise.  `m_range` is `Uint16`; the comparison promotes it to
`int` preserving its (nonnegative) value. -/
def axisGetName (index : Nat) (range : Nat) : String :=
  (named_stick_axis.getD index "") ++ (if (range : Int) < 0 then "-" else "+")

/-! ## Battery mapping (`Device::UpdateInput`) -/

/-- `SDL_JoystickPowerLevel`. -/
inductive PowerLevel
  | unknown | empty | low | medium | full | wired | max
  deriving DecidableEq

/-- The battery-level assignment performed by the `switch` in
`Device::UpdateInput`: `wired`/`max` → 1.0, `medium` → 0.5, `low` → 0.3,
default → 0. -/
def batteryLevelOf (p : PowerLevel) : ℚ :=
  match p with
  | .wired => 1
  | .max => 1
  | .medium => 1/2
  | .low => 3/10
  | _ => 0

/-! ## Motor control

`Motor::SetState` computes `Uint16 m_motor = (Uint16)(state * m_range)` with
`m_range` the constructor argument (the `Device` constructor passes `0xFFFF`),
compares against the adapter's stored value for the motor's side
(`motor_val.right` when `m_index` is nonzero, `motor_val.left` otherwise),
and only on a change stores the new value and calls `Device::UpdateMotors`,
which pushes both stored magnitudes (`motor_val.left`, `motor_val.right`)
to the hardware. -/

/-- The adapter's `MotorVal motor_val` field: two `Uint16` magnitudes. -/
structure MotorVal where
  left : Nat
  right : Nat
  deriving DecidableEq, Repr

/-- The `Uint16` magnitude computed by `Motor::SetState`: the `double` product
`state * m_range` converted to `Uint16` (truncation toward zero, then the
unsigned reduction; the reduction is the identity for every in-range value). -/
def motorMagnitude (state : ℚ) (range : Nat) : Nat :=
  u16cast (ratTrunc (state * (range : ℚ)))

/-- `Device::UpdateMotors`: the magnitude pair handed to
`SDL_GameControllerRumble` — both stored sides. -/
def UpdateMotors (mv : MotorVal) : Nat × Nat := (mv.left, mv.right)

/-- `Motor::SetState` for a motor with index `index` and range `range`
acting on the parent adapter's `motor_val` state `mv`.  Returns the updated
`motor_val` together with the list of hardware commits (`UpdateMotors` calls)
performed, in order. -/
def motorSetState (index : Nat) (range : Nat) (state : ℚ) (mv : MotorVal) :
    MotorVal × List (Nat × Nat) :=
  let m_motor := motorMagnitude state range
  if index ≠ 0 then
    if m_motor ≠ mv.right then
      let mv2 : MotorVal := { mv with right := m_motor }
      (mv2, [UpdateMotors mv2])
    else (mv, [])
  else
    if m_motor ≠ mv.left then
      let mv2 : MotorVal := { mv with left := m_motor }
      (mv2, [UpdateMotors mv2])
    else (mv, [])

/-! ## Device construction -/

/-- A control object created by the `Device` constructor, identified by its
kind, catalog index and (where the source stores one) its `Uint16` range. -/
inductive Control where
  | button (index : Nat)
  | trigger (index : Nat) (range : Nat)
  | axis (index : Nat) (range : Nat)
  | motor (index : Nat) (range : Nat)
  | battery
  deriving DecidableEq, Repr

/-- A constructed `Device` adapter, reduced to its input and output control
lists (the parts the claims are about). -/
structure GCDevice where
  inputs : List Control
  outputs : List Control
  deriving DecidableEq, Repr

/-- Modelled from the spec: `Core::Device::AddAnalogInputs` lives in
`InputCommon/ControllerInterface/CoreDevice.h`, which is not part of this
backend's sources.  Per the spec, "Axis catalog entries each produce two
Control Objects (negative and positive polarity)", so it adds exactly the two
given inputs. -/
def AddAnalogInputs (low high : Control) : List Control := [low, high]

/-- The `Device::Device` constructor, generalised over the catalog sizes: one
`Button` per button entry, one `Trigger` per trigger entry (range
`SDL_JOYSTICK_AXIS_MAX`), per stick-axis entry `AddAnalogInputs` of a negative
instance (range argument `SDL_JOYSTICK_AXIS_MIN`) and a positive instance
(range argument `SDL_JOYSTICK_AXIS_MAX`), one `Motor` per motor entry (range
`0xFFFF`), and finally the `Battery` input. -/
def DeviceCtor (numButtons numTriggers numStickAxes numMotors : Nat) : GCDevice :=
  { inputs :=
      (List.range numButtons).map Control.button ++
      (List.range numTriggers).map
        (fun i => Control.trigger i (u16cast SDL_JOYSTICK_AXIS_MAX)) ++
      (List.range numStickAxes).flatMap
        (fun i => AddAnalogInputs (Control.axis i (axisStoredRange SDL_JOYSTICK_AXIS_MIN))
                                  (Control.axis i (axisStoredRange SDL_JOYSTICK_AXIS_MAX))) ++
      [Control.battery],
    outputs :=
      (List.range numMotors).map (fun i => Control.motor i (u16cast 0xFFFF)) }

/-- The adapter the source actually constructs, from the four static
catalogs. -/
def DeviceActual : GCDevice :=
  DeviceCtor named_buttons.length named_trigger_axis.length
             named_stick_axis.length named_motors.length

/-! ## Host registry and `OpenAndAddDevice` -/

/-- Modelled from the spec: the Host Registry (the external
`g_controller_interface`) holds the registered adapters for this source and
may or may not yet be accepting devices ("Adding devices will actually fail
here, as the ControllerInterface hasn't finished initializing yet").
Registered adapters are tracked with their construction index. -/
structure Registry where
  accepting : Bool
  devices : List (Nat × GCDevice)
  deriving DecidableEq, Repr

/-- Modelled from the spec: `ControllerInterface::AddDevice` registers the
adapter when the registry is accepting devices and fails (leaving the list
unchanged) otherwise. -/
def Registry.AddDevice (r : Registry) (idx : Nat) (gc : GCDevice) : Registry :=
  if r.accepting then { r with devices := r.devices ++ [(idx, gc)] } else r

/-- A registry with no registered devices. -/
def emptyRegistry (accepting : Bool) : Registry :=
  { accepting := accepting, devices := [] }

/-- `OpenAndAddDevice`: `SDL_GameControllerOpen(index)` either fails (`none`)
or yields a handle from which the adapter `gc` is constructed (`some gc`).
On failure nothing happens; on success the adapter is handed to
`AddDevice` only when it has at least one input or output control.  The
second component is the list of errors surfaced — the source has no error
path here, so it is always empty. -/
def OpenAndAddDevice (openResult : Option GCDevice) (idx : Nat) (r : Registry) :
    Registry × List String :=
  match openResult with
  | some gc =>
      (if !gc.inputs.isEmpty || !gc.outputs.isEmpty then r.AddDevice idx gc else r, [])
  | none => (r, [])

/-! ## Hotplug events and the coordinator loop -/

/-- The event kinds `HandleEventAndContinue` distinguishes:
`SDL_CONTROLLERDEVICEADDED`, `SDL_CONTROLLERDEVICEREMOVED`, the custom
populate event and the custom stop event. -/
inductive HotplugEvent where
  | added (idx : Nat)
  | removed (instId : Nat)
  | populateEvent
  | stopEvent
  deriving DecidableEq, Repr

/-- The driver's view of the world: device `i` is present (and
`SDL_GameControllerOpen(i)` succeeds) exactly when `i < numJoysticks`
(`SDL_NumJoysticks`). -/
structure DriverWorld where
  numJoysticks : Nat
  deriving DecidableEq, Repr

/-- `SDL_GameControllerOpen(idx)` followed by the adapter construction:
succeeds with the actual-catalog adapter when the device is present. -/
def openByIndex (w : DriverWorld) (idx : Nat) : Option GCDevice :=
  if idx < w.numJoysticks then some DeviceActual else none

/-- Modelled from the spec: `ControllerInterface::PlatformPopulateDevices`
"atomically clears its device list for this source and re-runs enumeration";
the callback the source passes opens and adds every device index below
`SDL_NumJoysticks()`. -/
def PlatformPopulateDevices (w : DriverWorld) (r : Registry) : Registry :=
  (List.range w.numJoysticks).foldl
    (fun acc i => (OpenAndAddDevice (openByIndex w i) i acc).1)
    { r with devices := [] }

/-- `HandleEventAndContinue`: dispatches one event and reports whether the
loop continues (`false` exactly for the stop event).  Removal identifies the
adapter whose joystick instance id matches; in this model the instance id of
a registered adapter is its construction index. -/
def HandleEventAndContinue (w : DriverWorld) (r : Registry) (e : HotplugEvent) :
    Registry × Bool :=
  match e with
  | .added idx => ((OpenAndAddDevice (openByIndex w idx) idx r).1, true)
  | .removed instId =>
      ({ r with devices := r.devices.filter (fun d => !decide (d.1 = instId)) }, true)
  | .populateEvent => (PlatformPopulateDevices w r, true)
  | .stopEvent => (r, false)

/-- The drain phase of `Init`'s background thread: pop and handle each queued
event in order; a `false` from `HandleEventAndContinue` makes the thread
lambda return at once.  Returns the registry and whether the thread is still
running afterwards. -/
def drainEvents (w : DriverWorld) (r : Registry) : List HotplugEvent → Registry × Bool
  | [] => (r, true)
  | e :: es =>
      let step := HandleEventAndContinue w r e
      if step.2 then drainEvents w step.1 es else (step.1, false)

/-! ## `Init`'s background thread -/

/-- Where the background thread ends up. -/
inductive ThreadPhase where
  | exitedBeforeLoop
  | exitedFromDrain
  | inWaitLoop
  deriving DecidableEq, Repr

/-- Observable outcome of the background thread's startup section. -/
structure InitThreadResult where
  logs : List String
  registry : Registry
  phase : ThreadPhase
  deriving DecidableEq, Repr

/-- The startup section of `Init`'s background thread.  `sdlInitResult` is
the return value of `SDL_Init` (0 on success, negative on failure);
`registerEventsResult` is `some start` when `SDL_RegisterEvents(2)` returns
the first allocated id and `none` when it returns `(Uint32)-1`.  The source
checks `if (SDL_Init(...) == 0)` and logs/returns in that branch, then checks
the register-events result, then drains the queued events and, if the drain
did not hit a stop event, enters the blocking wait loop. -/
def initThread (sdlInitResult : Int) (registerEventsResult : Option Nat)
    (w : DriverWorld) (queued : List HotplugEvent) (r : Registry) : InitThreadResult :=
  if sdlInitResult = 0 then
    { logs := ["SDL failed to initialize"], registry := r, phase := .exitedBeforeLoop }
  else
    match registerEventsResult with
    | none =>
        { logs := ["SDL failed to register custom events"], registry := r,
          phase := .exitedBeforeLoop }
    | some _ =>
        let drained := drainEvents w r queued
        { logs := [], registry := drained.1,
          phase := if drained.2 then .inWaitLoop else .exitedFromDrain }

/-! ## `DeInit` / `PopulateDevices` -/

/-- The process-wide coordinator state the `DeInit`/`PopulateDevices` entry
points touch: whether `s_hotplug_thread.joinable()` holds (a `std::thread`
stays joinable after its function returns, until `join()` is called), the
events pushed into the driver queue via `SDL_PushEvent`, and the number of
`join()` calls performed. -/
structure Coordinator where
  joinable : Bool
  pushedEvents : List HotplugEvent
  joinCount : Nat
  deriving DecidableEq, Repr

/-- The coordinator state of a subsystem on which `Init` was never called:
the default-constructed `std::thread` is not joinable. -/
def initialCoordinator : Coordinator :=
  { joinable := false, pushedEvents := [], joinCount := 0 }

/-- `DeInit()`: returns at once when the thread handle is not joinable;
otherwise pushes the stop event and joins (after `join()` the handle is no
longer joinable). -/
def DeInit (c : Coordinator) : Coordinator :=
  if !c.joinable then c
  else { joinable := false,
         pushedEvents := c.pushedEvents ++ [HotplugEvent.stopEvent],
         joinCount := c.joinCount + 1 }

/-- `PopulateDevices()`: returns at once when the thread handle is not
joinable; otherwise pushes the populate event. -/
def PopulateDevices (c : Coordinator) : Coordinator :=
  if !c.joinable then c
  else { c with pushedEvents := c.pushedEvents ++ [HotplugEvent.populateEvent] }

/-! ## The pre-seeded-queue scenario -/

/-- One device present (index 0). -/
def worldOne : DriverWorld := { numJoysticks := 1 }

/-- The drain phase run on the pre-seeded queue `[add(0), stop]` with the
host registry not yet accepting devices. -/
def drainAddStop : Registry × Bool :=
  drainEvents worldOne (emptyRegistry false) [HotplugEvent.added 0, HotplugEvent.stopEvent]

/-- The complete scenario: drain the pre-seeded queue `[add(0), stop]` with
the registry not accepting; then the host finishes startup (the registry
starts accepting); then `PopulateDevices()` is called — the thread handle is
still joinable, so the populate event is pushed, but it is dispatched only if
the background thread is still in its loop. -/
def scenarioAddStopThenPopulate : Registry :=
  let r2 : Registry := { drainAddStop.1 with accepting := true }
  if drainAddStop.2 then (HandleEventAndContinue worldOne r2 .populateEvent).1 else r2

/-- The same scenario with the pre-seeded queue `[add(0)]` (no stop event):
the drain leaves the thread alive, so the later populate event is
dispatched. -/
def scenarioAddOnlyThenPopulate : Registry :=
  let drained := drainEvents worldOne (emptyRegistry false) [HotplugEvent.added 0]
  let r2 : Registry := { drained.1 with accepting := true }
  if drained.2 then (HandleEventAndContinue worldOne r2 .populateEvent).1 else r2

/-! ## Helper lemmas -/

lemma length_flatMap_const {α β : Type} (l : List α) (f : α → List β) (n : Nat)
    (h : ∀ a, (f a).length = n) : (l.flatMap f).length = n * l.length := by
  induction l with
  | nil => simp
  | cons a t ih => simp [List.flatMap_cons, h, ih, Nat.mul_succ]; omega

lemma battery_mem_DeviceCtor (B T A M : Nat) :
    Control.battery ∈ (DeviceCtor B T A M).inputs := by
  simp [DeviceCtor]

/-! ## Theorems -/

/-- Claim C1 (code evaluated at the failing inputs): the positive-polarity
Axis control (constructor range `SDL_JOYSTICK_AXIS_MAX`) returns 1 at the
positive extreme and 0 at rest, but returns -1 — a negative value, not ≈0 —
when the raw sample is the negative extreme; and the negative-polarity
control (constructor range `SDL_JOYSTICK_AXIS_MIN`, stored as the unsigned
value 32768) returns -1, not ≈1, at the negative extreme and 0 elsewhere.
The unsigned `m_range` field and the integer division performed before the
conversion to `double` contradict the claimed (and clearly intended)
normalization. -/
theorem axis_getstate_extremes_bug :
    axisGetState SDL_JOYSTICK_AXIS_MAX (axisStoredRange SDL_JOYSTICK_AXIS_MAX) = 1 ∧
    axisGetState 0 (axisStoredRange SDL_JOYSTICK_AXIS_MAX) = 0 ∧
    axisGetState SDL_JOYSTICK_AXIS_MIN (axisStoredRange SDL_JOYSTICK_AXIS_MAX) = -1 ∧
    axisGetState SDL_JOYSTICK_AXIS_MIN (axisStoredRange SDL_JOYSTICK_AXIS_MIN) = -1 ∧
    axisGetState SDL_JOYSTICK_AXIS_MAX (axisStoredRange SDL_JOYSTICK_AXIS_MIN) = 0 ∧
    axisGetState 0 (axisStoredRange SDL_JOYSTICK_AXIS_MIN) = 0 := by
  decide

/-- Claim C2 (code evaluated at the failing input): the background thread
tests `SDL_Init(...) == 0`, but 0 is the driver's success value — so when
startup succeeds the thread logs "SDL failed to initialize" and exits before
the event loop, and when startup fails (a negative return) it proceeds into
the wait loop, the reverse of the claim. -/
theorem init_thread_inverted_failure_check :
    (initThread 0 (some 32768) worldOne [] (emptyRegistry false)).phase =
      ThreadPhase.exitedBeforeLoop ∧
    (initThread 0 (some 32768) worldOne [] (emptyRegistry false)).logs =
      ["SDL failed to initialize"] ∧
    (initThread (-1) (some 32768) worldOne [] (emptyRegistry false)).phase =
      ThreadPhase.inWaitLoop ∧
    (initThread (-1) none worldOne [] (emptyRegistry false)).phase =
      ThreadPhase.exitedBeforeLoop :=
  ⟨rfl, rfl, rfl, rfl⟩

/-- Claim C3: the battery mapping of `Device::UpdateInput` is total and
exact — wired and max give 1, medium gives 1/2, low gives 3/10, every other
power state gives 0, and no other output value is possible. -/
theorem battery_mapping_total_exact :
    batteryLevelOf .wired = 1 ∧ batteryLevelOf .max = 1 ∧
    batteryLevelOf .medium = 1/2 ∧ batteryLevelOf .low = 3/10 ∧
    batteryLevelOf .unknown = 0 ∧ batteryLevelOf .empty = 0 ∧
    batteryLevelOf .full = 0 ∧
    ∀ p : PowerLevel, batteryLevelOf p = 1 ∨ batteryLevelOf p = 1/2 ∨
      batteryLevelOf p = 3/10 ∨ batteryLevelOf p = 0 := by
  refine ⟨rfl, rfl, rfl, rfl, rfl, rfl, rfl, fun p => ?_⟩
  cases p <;> simp [batteryLevelOf]

/-- Claim C4: `Motor::SetState` (constructed with range `0xFFFF`) computes
the 16-bit magnitude of `state * 65535`; when it equals the adapter's stored
magnitude for the motor's side, the state is unchanged and no `UpdateMotors`
commit happens; when it differs, that side is updated and exactly one commit
occurs, carrying the latest stored magnitudes of both sides. -/
theorem motor_setstate_commit_discipline (index : Nat) (state : ℚ) (mv : MotorVal) :
    motorSetState index 0xFFFF state mv =
      if motorMagnitude state 65535 = (if index ≠ 0 then mv.right else mv.left) then
        (mv, [])
      else
        (let mv2 : MotorVal :=
           if index ≠ 0 then { mv with right := motorMagnitude state 65535 }
           else { mv with left := motorMagnitude state 65535 }
         (mv2, [(mv2.left, mv2.right)])) := by
  by_cases hi : index ≠ 0 <;>
    by_cases hm : motorMagnitude state 65535 = (if index ≠ 0 then mv.right else mv.left) <;>
      simp_all [motorSetState, UpdateMotors]

/-- Claim C5: for catalog sizes `B` buttons, `T` trigger axes, `A` stick
axes and `M` motors, the `Device` constructor yields exactly `B + T + 2A + 1`
input controls and exactly `M` output controls; with the actual catalogs
(16, 2, 4, 2) that is 27 inputs and 2 outputs. -/
theorem device_ctor_control_counts (B T A M : Nat) :
    (DeviceCtor B T A M).inputs.length = B + T + 2 * A + 1 ∧
    (DeviceCtor B T A M).outputs.length = M ∧
    DeviceActual.inputs.length = 27 ∧
    DeviceActual.outputs.length = 2 := by
  refine ⟨?_, ?_, rfl, rfl⟩
  · have hax := length_flatMap_const (List.range A)
      (fun i => AddAnalogInputs (Control.axis i (axisStoredRange SDL_JOYSTICK_AXIS_MIN))
                                (Control.axis i (axisStoredRange SDL_JOYSTICK_AXIS_MAX)))
      2 (fun i => rfl)
    simp only [DeviceCtor, List.length_append, hax]
    simp
  · simp [DeviceCtor]

/-- Claim C6 counterexample: in the pre-seeded `[add(0), stop]` scenario the
drained stop event terminates the background thread, so the populate event
posted by the later `PopulateDevices()` call is never dispatched and the
registered device list stays empty — not "exactly one adapter for
index 0". -/
theorem drain_stop_then_populate_counterexample :
    scenarioAddStopThenPopulate.devices.length ≠ 1 := by decide

/-- Claim C6 as amended: draining `[add(0), stop]` with the registry not yet
accepting leaves the registered list empty after `Init()` returns — but the
stop event also exits the background thread, so the subsequent
`PopulateDevices()` registers nothing and the list stays empty; had the
pre-seeded queue held only `[add(0)]`, the thread would stay alive and the
subsequent populate would register exactly one adapter, for index 0. -/
theorem drain_stop_then_populate_amended :
    drainAddStop.1.devices = [] ∧ drainAddStop.2 = false ∧
    scenarioAddStopThenPopulate.devices = [] ∧
    scenarioAddOnlyThenPopulate.devices.map Prod.fst = [0] ∧
    scenarioAddOnlyThenPopulate.devices.length = 1 :=
  ⟨rfl, rfl, rfl, rfl, rfl⟩

/-- Claim C7: when the per-device open fails, `OpenAndAddDevice` changes
nothing and surfaces no error; when the open succeeds, the constructed
adapter is handed to the Host Registry's `AddDevice` exactly when it has at
least one input or output control, and is silently dropped otherwise. -/
theorem open_add_device_guard (idx : Nat) (r : Registry) (gc : GCDevice) :
    OpenAndAddDevice none idx r = (r, []) ∧
    ((gc.inputs ≠ [] ∨ gc.outputs ≠ []) →
      OpenAndAddDevice (some gc) idx r = (r.AddDevice idx gc, [])) ∧
    (gc.inputs = [] → gc.outputs = [] →
      OpenAndAddDevice (some gc) idx r = (r, [])) := by
  refine ⟨rfl, fun h => ?_, fun h1 h2 => ?_⟩
  · rcases h with h | h <;> simp [OpenAndAddDevice, h]
  · simp [OpenAndAddDevice, h1, h2]

/-- Witness for C7 at concrete inputs: a failed open on an accepting empty
registry, a one-input adapter (registered), and a control-less adapter
(dropped). -/
theorem open_add_device_guard_witness :
    OpenAndAddDevice none 0 (emptyRegistry true) = (emptyRegistry true, []) ∧
    OpenAndAddDevice (some { inputs := [Control.battery], outputs := [] }) 0
        (emptyRegistry true) =
      ((emptyRegistry true).AddDevice 0 { inputs := [Control.battery], outputs := [] }, []) ∧
    OpenAndAddDevice (some { inputs := [], outputs := [] }) 0 (emptyRegistry true) =
      (emptyRegistry true, []) :=
  ⟨(open_add_device_guard 0 (emptyRegistry true)
      { inputs := [], outputs := [] }).1,
   (open_add_device_guard 0 (emptyRegistry true)
      { inputs := [Control.battery], outputs := [] }).2.1 (Or.inl (by simp)),
   (open_add_device_guard 0 (emptyRegistry true)
      { inputs := [], outputs := [] }).2.2 rfl rfl⟩

/-- Claim C8: `DeInit()` on a coordinator whose thread handle is not
joinable (in particular one that was never `Init()`'d) posts nothing, joins
nothing and changes nothing; on a joinable one it posts exactly the stop
event, performs exactly one join, leaves the handle non-joinable, and a
second `DeInit()` afterwards is again a no-op. -/
theorem deinit_noop_and_idempotent (c : Coordinator) :
    (c.joinable = false → DeInit c = c) ∧
    (c.joinable = true →
      (DeInit c).pushedEvents = c.pushedEvents ++ [HotplugEvent.stopEvent] ∧
      (DeInit c).joinCount = c.joinCount + 1 ∧
      (DeInit c).joinable = false ∧
      DeInit (DeInit c) = DeInit c) ∧
    DeInit initialCoordinator = initialCoordinator := by
  refine ⟨fun h => by simp [DeInit, h], fun h => ?_, rfl⟩
  simp [DeInit, h]

/-- Witness for C8 at concrete coordinators: the never-initialised state and
a joinable one. -/
theorem deinit_noop_and_idempotent_witness :
    DeInit initialCoordinator = initialCoordinator ∧
    (DeInit { joinable := true, pushedEvents := [], joinCount := 0 }).pushedEvents =
      [HotplugEvent.stopEvent] ∧
    DeInit (DeInit { joinable := true, pushedEvents := [], joinCount := 0 }) =
      DeInit { joinable := true, pushedEvents := [], joinCount := 0 } :=
  ⟨(deinit_noop_and_idempotent initialCoordinator).1 rfl,
   ((deinit_noop_and_idempotent
      { joinable := true, pushedEvents := [], joinCount := 0 }).2.1 rfl).1,
   ((deinit_noop_and_idempotent
      { joinable := true, pushedEvents := [], joinCount := 0 }).2.1 rfl).2.2.2⟩

/-- Claim C9: every constructed adapter's input list contains the Battery
control added unconditionally at the end of the constructor, hence is
non-empty, so the registration guard never rejects a successfully opened
device: `OpenAndAddDevice` on any successful open invokes the registry's
`AddDevice`. -/
theorem constructed_device_always_registered (B T A M idx : Nat) (r : Registry) :
    Control.battery ∈ (DeviceCtor B T A M).inputs ∧
    (DeviceCtor B T A M).inputs ≠ [] ∧
    OpenAndAddDevice (some (DeviceCtor B T A M)) idx r =
      (r.AddDevice idx (DeviceCtor B T A M), []) := by
  have hb := battery_mem_DeviceCtor B T A M
  have hne : (DeviceCtor B T A M).inputs ≠ [] := List.ne_nil_of_mem hb
  exact ⟨hb, hne, by simp [OpenAndAddDevice, hne]⟩

/-- Claim C10: both polarity Axis controls of a stick axis report the same
name, the catalog name with the '+' suffix: the stored range is an unsigned
16-bit field, so the test selecting '-' is never true — the two controls are
indistinguishable by name. -/
theorem axis_names_both_positive (i : Nat) :
    (∀ range : Nat, axisGetName i range = named_stick_axis.getD i "" ++ "+") ∧
    axisGetName i (axisStoredRange SDL_JOYSTICK_AXIS_MIN) =
      axisGetName i (axisStoredRange SDL_JOYSTICK_AXIS_MAX) := by
  have h : ∀ range : Nat, axisGetName i range = named_stick_axis.getD i "" ++ "+" := by
    intro range
    have hnn : ¬((range : Int) < 0) := not_lt.mpr (Int.natCast_nonneg range)
    simp [axisGetName, hnn]
  exact ⟨h, (h _).trans (h _).symm⟩

end SDLGC
